import Mathlib

/-!
Shallow embedding of the floor-plan marker rendering engine of the
floorsync repository (class `FloorPlanRenderer` in the latest snapshot,
together with `FLOOR_PLAN_CONSTANTS`), and proofs about it.

Conventions of the embedding:
* JavaScript numbers are modelled as exact rationals (`ℚ`); the claims
  under study are about exact thresholds and exact coordinate algebra.
* `Math.sqrt(d2) > 5` is embedded as `d2 > 25` and `Math.sqrt(d2) <= 5`
  as `d2 ≤ 25` (both sides are nonnegative, squaring is monotone).
* Nullable object references (`pixiApp`, `contentContainer`,
  `markerContainer`, `floorPlanSprite`) are modelled as `Bool` flags that
  record whether the reference is set, plus the numeric fields of the
  referenced display objects.  `destroy()` in the source calls
  `pixiApp.destroy(true)` but never clears any of those references, so
  the model records destruction in a separate `pixiDestroyed` flag.
* `markerTextures : Map<string, PIXI.Graphics>` is modelled as an
  insertion-ordered association list with JavaScript `Map` semantics.
* PIXI display objects are identified by an allocation tag (`nextTag`
  counter) so that `removeChild(existingMarker)` removes exactly the
  object that the registry holds.
-/

namespace FloorSync

/-- `FLOOR_PLAN_CONSTANTS.FLOOR_PLAN_SCALE_FACTOR` (0.9). -/
def FLOOR_PLAN_SCALE_FACTOR : ℚ := 9 / 10

/-- `FLOOR_PLAN_CONSTANTS.DEFAULT_WIDTH`. -/
def DEFAULT_WIDTH : ℚ := 800

/-- `FLOOR_PLAN_CONSTANTS.DEFAULT_HEIGHT`. -/
def DEFAULT_HEIGHT : ℚ := 600

/-- `FLOOR_PLAN_CONSTANTS.STATUS_COLORS`, looked up by key with
`not_started` as the fallback used by `getStatusColor`'s `default`. -/
def STATUS_COLORS (status : String) : Nat :=
  if status = "done" then 0x10b981
  else if status = "in_progress" then 0xf59e0b
  else if status = "blocked" then 0xef4444
  else if status = "final_check_awaiting" then 0x3b82f6
  else 0x6b7280

/-- `ChecklistItem` (only the `status` field is read by the renderer). -/
structure ChecklistItem where
  status : String
deriving DecidableEq, Repr

/-- `TaskCoordinates`. -/
structure TaskCoordinates where
  x : ℚ
  y : ℚ
deriving DecidableEq, Repr

/-- `TaskDocument` restricted to the fields the renderer reads. -/
structure TaskDocument where
  id : String
  coordinates : TaskCoordinates
  checklist : List ChecklistItem
deriving DecidableEq, Repr

/-- `FloorPlanRenderer.getTaskOverallStatus` (latest snapshot): counts of
`done`, `blocked` and `not_started` items decide the aggregate status. -/
def getTaskOverallStatus (task : TaskDocument) : String :=
  let checklist := task.checklist
  if checklist.length = 0 then "not_started"
  else
    let doneCount := (checklist.filter fun item => item.status = "done").length
    let blockedCount := (checklist.filter fun item => item.status = "blocked").length
    let notStartedCount := (checklist.filter fun item => item.status = "not_started").length
    if blockedCount > 0 then "blocked"
    else if doneCount = checklist.length then "done"
    else if notStartedCount < checklist.length then "in_progress"
    else "not_started"

/-- `FloorPlanRenderer.getStatusColor`: the `switch` on the status string. -/
def getStatusColor (status : String) : Nat :=
  if status = "done" then STATUS_COLORS "done"
  else if status = "in_progress" then STATUS_COLORS "in_progress"
  else if status = "blocked" then STATUS_COLORS "blocked"
  else if status = "final_check_awaiting" then STATUS_COLORS "final_check_awaiting"
  else STATUS_COLORS "not_started"

/-- The aggregate-status precedence exactly as the claim words it:
`blocked` if any item is blocked; else `done` if the checklist is
nonempty and every item is done; else `in_progress` if any item is not
in its initial `not_started` state; else `not_started` (including for an
empty checklist). -/
def claimAggregateStatus (checklist : List ChecklistItem) : String :=
  if checklist.any fun item => item.status = "blocked" then "blocked"
  else if checklist.length ≠ 0 ∧ (checklist.all fun item => item.status = "done") then "done"
  else if checklist.any fun item => item.status ≠ "not_started" then "in_progress"
  else "not_started"

/-- Helper used to build concrete example tasks from a list of item
statuses. -/
def mkTask (statuses : List String) : TaskDocument :=
  { id := "t", coordinates := { x := 0, y := 0 },
    checklist := statuses.map fun s => { status := s } }

/-- A 2D point (`{ x, y }` objects and `event.global` positions). -/
structure Vec2 where
  x : ℚ
  y : ℚ
deriving DecidableEq, Repr

/-- A marker (`PIXI.Graphics` created by `createMarkerGraphics` and
positioned by `renderSingleMarker`).  `tag` is the allocation identity
of the graphics object; `x`, `y` are its position inside
`markerContainer`; `status` determines its fill color. -/
structure MarkerObj where
  tag : Nat
  x : ℚ
  y : ℚ
  status : String
deriving DecidableEq, Repr

/-- The mutable state of a `FloorPlanRenderer` instance.  Boolean flags
stand for the nullable references; numeric fields are the positions,
scales and texture dimensions of the PIXI objects the class holds.
`contentContainer` is never scaled by the class, so only its position is
modelled; `floorPlanSprite` has `anchor 0.5` and uniform scale
`spriteScale`; `markerContainer` has position `(markerX, markerY)` and
uniform scale `markerScale`. -/
structure RendererState where
  hasPixiApp : Bool
  hasContentContainer : Bool
  hasMarkerContainer : Bool
  hasSprite : Bool
  pixiDestroyed : Bool
  appW : ℚ
  appH : ℚ
  texW : ℚ
  texH : ℚ
  spriteScale : ℚ
  spriteX : ℚ
  spriteY : ℚ
  markerScale : ℚ
  markerX : ℚ
  markerY : ℚ
  contentX : ℚ
  contentY : ℚ
  markerChildren : List MarkerObj
  markerTextures : List (String × MarkerObj)
  nextTag : Nat
  isDragging : Bool
  dragStart : Option Vec2
  contentStartPos : Option Vec2
  clickStartPosition : Option Vec2
deriving DecidableEq, Repr

/-- JavaScript `Map.prototype.set`: update in place when the key is
present, otherwise append in insertion order. -/
def mapSet (m : List (String × MarkerObj)) (k : String) (v : MarkerObj) :
    List (String × MarkerObj) :=
  if m.any fun p => p.1 = k then
    m.map fun p => if p.1 = k then (k, v) else p
  else m ++ [(k, v)]

/-- JavaScript `Map.prototype.get` (`undefined` becomes `none`). -/
def mapGet (m : List (String × MarkerObj)) (k : String) : Option MarkerObj :=
  (m.find? fun p => p.1 = k).map Prod.snd

/-- JavaScript `Map.prototype.delete`. -/
def mapDelete (m : List (String × MarkerObj)) (k : String) :
    List (String × MarkerObj) :=
  m.filter fun p => p.1 ≠ k

/-- `Container.removeChild(obj)`: removes the object with `obj`'s
identity from the children list. -/
def removeChildByTag (children : List MarkerObj) (tag : Nat) : List MarkerObj :=
  children.filter fun c => c.tag ≠ tag

/-- `getElementDimensions`: `width || DEFAULT_WIDTH`,
`height || DEFAULT_HEIGHT` (JavaScript falsiness of `0`). -/
def getElementDimensions (w h : ℚ) : ℚ × ℚ :=
  (if w = 0 then DEFAULT_WIDTH else w, if h = 0 then DEFAULT_HEIGHT else h)

/-- State after a successful `initialize(container)` followed by the
`loadFloorPlan` continuation, for a host element measuring
`hostW × hostH` and a floor-plan texture of natural size
`texW × texH`: the sprite is anchored at the centre of the app screen
with the fit scale `min(w/texW, h/texH) * FLOOR_PLAN_SCALE_FACTOR`, and
`markerContainer` mirrors the sprite's scale and position. -/
def initializeRenderer (hostW hostH texW texH : ℚ) : RendererState :=
  let wh := getElementDimensions hostW hostH
  let w := wh.1
  let h := wh.2
  let scale := min (w / texW) (h / texH) * FLOOR_PLAN_SCALE_FACTOR
  { hasPixiApp := true
    hasContentContainer := true
    hasMarkerContainer := true
    hasSprite := true
    pixiDestroyed := false
    appW := w, appH := h
    texW := texW, texH := texH
    spriteScale := scale, spriteX := w / 2, spriteY := h / 2
    markerScale := scale, markerX := w / 2, markerY := h / 2
    contentX := 0, contentY := 0
    markerChildren := [], markerTextures := [], nextTag := 0
    isDragging := false, dragStart := none, contentStartPos := none
    clickStartPosition := none }

/-- `validateRelativeCoordinates`. -/
def validateRelativeCoordinates (relativeX relativeY : ℚ) : Bool :=
  if relativeX < 0 ∨ relativeX > 1 ∨ relativeY < 0 ∨ relativeY > 1 then
    false
  else
    true

/-- The global x of `floorPlanSprite.getBounds()`: the sprite is at
`(spriteX, spriteY)` inside `contentContainer` (which sits at
`(contentX, contentY)` with scale 1) and is centre-anchored with scale
`spriteScale` over a `texW`-wide texture. -/
def boundsX (st : RendererState) : ℚ :=
  st.contentX + st.spriteX - st.texW * st.spriteScale / 2

/-- The global y of `floorPlanSprite.getBounds()`. -/
def boundsY (st : RendererState) : ℚ :=
  st.contentY + st.spriteY - st.texH * st.spriteScale / 2

/-- The relative x computed inside `screenToFloorPlanCoords`:
`(adjustedScreenX - (bounds.x - contentContainer.x)) /
 (localBounds.width * sprite.scale.x)` with
`adjustedScreenX = screenX - contentContainer.x` and
`localBounds.width = texW`. -/
def relCoordX (st : RendererState) (screenX : ℚ) : ℚ :=
  ((screenX - st.contentX) - (boundsX st - st.contentX)) /
    (st.texW * st.spriteScale)

/-- The relative y computed inside `screenToFloorPlanCoords`. -/
def relCoordY (st : RendererState) (screenY : ℚ) : ℚ :=
  ((screenY - st.contentY) - (boundsY st - st.contentY)) /
    (st.texH * st.spriteScale)

/-- `FloorPlanRenderer.screenToFloorPlanCoords`. -/
def screenToFloorPlanCoords (st : RendererState) (screenX screenY : ℚ) :
    Option Vec2 :=
  if ¬ (st.hasSprite ∧ st.hasContentContainer) then none
  else
    let relativeX := relCoordX st screenX
    let relativeY := relCoordY st screenY
    if ¬ validateRelativeCoordinates relativeX relativeY then none
    else some { x := relativeX, y := relativeY }

/-- `FloorPlanRenderer.renderSingleMarker`: guarded by
`ensureMarkerContainer` and `floorPlanSprite`; builds a marker for the
task's aggregate status at local position
`((x - 0.5) * texture.width, (y - 0.5) * texture.height)`, registers it
in `markerTextures` and appends it to `markerContainer`. -/
def renderSingleMarker (st : RendererState) (task : TaskDocument) :
    RendererState :=
  if ¬ (st.hasMarkerContainer ∧ st.hasSprite) then st
  else
    let status := getTaskOverallStatus task
    let localX := (task.coordinates.x - 1 / 2) * st.texW
    let localY := (task.coordinates.y - 1 / 2) * st.texH
    let marker : MarkerObj := { tag := st.nextTag, x := localX, y := localY, status := status }
    { st with
      markerTextures := mapSet st.markerTextures task.id marker
      markerChildren := st.markerChildren ++ [marker]
      nextTag := st.nextTag + 1 }

/-- `FloorPlanRenderer.renderAllMarkers`: guarded by
`ensureMarkerContainer`; clears the container and the registry, then
renders each task in order. -/
def renderAllMarkers (st : RendererState) (tasks : List TaskDocument) :
    RendererState :=
  if ¬ st.hasMarkerContainer then st
  else
    tasks.foldl renderSingleMarker
      { st with markerChildren := [], markerTextures := [] }

/-- The body of the `changedTaskIds.forEach` callback in
`repaintChangedMarkers`: remove the registered marker for `taskId` (if
any) from the container and the registry, then re-render the task if it
is still present in `tasks`. -/
def repaintOne (tasks : List TaskDocument) (st : RendererState)
    (taskId : String) : RendererState :=
  let st1 :=
    match mapGet st.markerTextures taskId with
    | some existingMarker =>
        { st with
          markerChildren := removeChildByTag st.markerChildren existingMarker.tag
          markerTextures := mapDelete st.markerTextures taskId }
    | none => st
  match tasks.find? fun t => t.id = taskId with
  | some task => renderSingleMarker st1 task
  | none => st1

/-- `FloorPlanRenderer.repaintChangedMarkers` (the changed-id set is
modelled as the list of its elements in iteration order). -/
def repaintChangedMarkers (st : RendererState) (changedTaskIds : List String)
    (tasks : List TaskDocument) : RendererState :=
  if ¬ st.hasMarkerContainer then st
  else changedTaskIds.foldl (repaintOne tasks) st

/-- `FloorPlanRenderer.destroy`: calls `pixiApp.destroy(true)` when the
app reference is set; no field of the class is cleared. -/
def destroy (st : RendererState) : RendererState :=
  if st.hasPixiApp then { st with pixiDestroyed := true } else st

/-- `FloorPlanRenderer.resize`: guarded by `ensureInitialized`; resizes
the app to the host element's dimensions and, when the sprite, marker
container and content container are all set, recomputes the fit scale
and re-centres the sprite and the marker container. -/
def resizeOp (st : RendererState) (hostW hostH : ℚ) : RendererState :=
  if ¬ st.hasPixiApp then st
  else
    let w := (getElementDimensions hostW hostH).1
    let h := (getElementDimensions hostW hostH).2
    if st.hasSprite ∧ st.hasMarkerContainer ∧ st.hasContentContainer then
      let scale := min (w / st.texW) (h / st.texH) * FLOOR_PLAN_SCALE_FACTOR
      { st with
        appW := w, appH := h
        spriteScale := scale, spriteX := w / 2, spriteY := h / 2
        markerScale := scale, markerX := w / 2, markerY := h / 2 }
    else { st with appW := w, appH := h }

/-- Global (screen) position of a marker: its local position scaled by
the marker container's transform, then offset by the content
container's position. -/
def markerGlobalPos (st : RendererState) (m : MarkerObj) : Vec2 :=
  { x := st.contentX + st.markerX + st.markerScale * m.x
    y := st.contentY + st.markerY + st.markerScale * m.y }

/-- Squared distance between two points.  The source compares
`Math.sqrt(dist2)` against the literal 5; since both sides are
nonnegative this is equivalent to comparing `dist2` against 25. -/
def dist2 (p q : Vec2) : ℚ :=
  (p.x - q.x) * (p.x - q.x) + (p.y - q.y) * (p.y - q.y)

/-- Pointer-down processing: the `pointerdown` handler installed by
`enableClick` on `floorPlanSprite` records `clickStartPosition`, and
`onDragStart` (installed on `contentContainer` by `enableDragPanning`)
starts a drag from the container's current position. -/
def processPointerDown (st : RendererState) (p : Vec2) : RendererState :=
  let st1 := if st.hasSprite then { st with clickStartPosition := some p } else st
  if st1.hasContentContainer then
    { st1 with
      isDragging := true
      dragStart := some p
      contentStartPos := some { x := st1.contentX, y := st1.contentY } }
  else st1

/-- Pointer-move processing (`onDragMove` on the stage): while a drag is
engaged, reposition the content container to the drag-start position
plus the accumulated delta, but only once the movement distance exceeds
5 px. -/
def processPointerMove (st : RendererState) (p : Vec2) : RendererState :=
  if st.isDragging then
    match st.dragStart, st.contentStartPos with
    | some ds, some cs =>
        if st.hasContentContainer then
          let deltaX := p.x - ds.x
          let deltaY := p.y - ds.y
          if deltaX * deltaX + deltaY * deltaY > 25 then
            { st with contentX := cs.x + deltaX, contentY := cs.y + deltaY }
          else st
        else st
    | _, _ => st
  else st

/-- Pointer-up processing: the `pointerup` handler installed by
`enableClick` on `floorPlanSprite` fires first (target before bubbling
to the stage): if the up position is within 5 px of
`clickStartPosition`, it converts the up position through
`screenToFloorPlanCoords` and, when valid, invokes the create-task
callback (the emitted coordinates are returned as the second
component); `clickStartPosition` is then cleared.  `onDragEnd` on the
stage then resets the drag state. -/
def processPointerUp (st : RendererState) (p : Vec2) :
    RendererState × Option Vec2 :=
  let clickStep : RendererState × Option Vec2 :=
    if st.hasSprite then
      match st.clickStartPosition with
      | some cs =>
          let deltaX := p.x - cs.x
          let deltaY := p.y - cs.y
          if deltaX * deltaX + deltaY * deltaY ≤ 25 then
            ({ st with clickStartPosition := none },
             screenToFloorPlanCoords st p.x p.y)
          else ({ st with clickStartPosition := none }, none)
      | none => (st, none)
    else (st, none)
  let st1 := clickStep.1
  let st2 :=
    if st1.hasContentContainer then
      { st1 with isDragging := false, dragStart := none, contentStartPos := none }
    else st1
  (st2, clickStep.2)

/-- A full pointer gesture delivered to the renderer: one pointer-down
on the floor-plan sprite, a sequence of pointer-moves, one pointer-up.
Returns the final state and the coordinates of the create-task request
emitted on pointer-up, if any. -/
def processGesture (st : RendererState) (down : Vec2) (moves : List Vec2)
    (up : Vec2) : RendererState × Option Vec2 :=
  processPointerUp (moves.foldl processPointerMove (processPointerDown st down)) up

/-- The claim's own notion of a gesture that "exceeded the 5 px
movement-distance threshold from the pointer-down position at any point
during the gesture". -/
def gestureEverExceededThreshold (down : Vec2) (moves : List Vec2)
    (up : Vec2) : Bool :=
  (moves ++ [up]).any fun p => decide (dist2 p down > 25)

/-- A drag-pan or resize operation applied to an initialized renderer.
A completed drag-pan gesture with net movement `(dx, dy)` leaves the
content container at its drag-start position plus the delta. -/
inductive ViewportOp where
  | pan (dx dy : ℚ)
  | resizeTo (hostW hostH : ℚ)
deriving DecidableEq, Repr

/-- Apply one viewport operation. -/
def applyOp (st : RendererState) : ViewportOp → RendererState
  | .pan dx dy => { st with contentX := st.contentX + dx, contentY := st.contentY + dy }
  | .resizeTo w h => resizeOp st w h

/-- Apply a sequence of viewport operations in order. -/
def applyOps (st : RendererState) (ops : List ViewportOp) : RendererState :=
  ops.foldl applyOp st

/-- A resize is valid when the host element reports nonnegative
dimensions (a bounding client rect is never negative; zero falls back
to the default dimensions). -/
def validOp : ViewportOp → Prop
  | .pan _ _ => True
  | .resizeTo w h => 0 ≤ w ∧ 0 ≤ h

/-- States reachable for an initialized renderer: all object references
set, the marker container mirroring the sprite transform, and a
positive fit scale over a texture with positive dimensions. -/
def goodState (st : RendererState) : Prop :=
  st.hasPixiApp = true ∧ st.hasContentContainer = true ∧
  st.hasMarkerContainer = true ∧ st.hasSprite = true ∧
  st.markerScale = st.spriteScale ∧ st.markerX = st.spriteX ∧
  st.markerY = st.spriteY ∧ 0 < st.spriteScale ∧ 0 < st.texW ∧ 0 < st.texH

section StatusLemmas

lemma filterLength_pos_iff_any (l : List ChecklistItem) (p : ChecklistItem → Bool) :
    0 < (l.filter p).length ↔ l.any p = true := by
  rw [← List.countP_eq_length_filter]
  simp [List.any_eq_true]

lemma filterLength_eq_iff_all (l : List ChecklistItem) (p : ChecklistItem → Bool) :
    (l.filter p).length = l.length ↔ l.all p = true := by
  rw [← List.countP_eq_length_filter]
  simp [List.all_eq_true]

lemma filterLength_lt_iff_any_not (l : List ChecklistItem) (p : ChecklistItem → Bool) :
    (l.filter p).length < l.length ↔ (l.any fun a => !(p a)) = true := by
  rw [← List.countP_eq_length_filter]
  have hle : l.countP p ≤ l.length := List.countP_le_length p
  rw [Nat.lt_iff_le_and_ne]
  simp only [hle, true_and, Ne, List.countP_eq_length]
  push_neg
  simp [List.any_eq_true]

end StatusLemmas

/-- Claim C2: `getTaskOverallStatus` realises the stated precedence —
`blocked` when any checklist item is blocked; else `done` when every
item is done; else `in_progress` when any item has left its initial
`not_started` state; else `not_started` (including for an empty
checklist) — and in particular `[blocked, done] ↦ blocked`,
`[done, done] ↦ done`, `[not_started, in_progress] ↦ in_progress`,
`[] ↦ not_started` and `[done, not_started] ↦ in_progress`. -/
theorem C2_aggregate_status_precedence :
    (∀ task : TaskDocument,
        getTaskOverallStatus task = claimAggregateStatus task.checklist)
    ∧ getTaskOverallStatus (mkTask ["blocked", "done"]) = "blocked"
    ∧ getTaskOverallStatus (mkTask ["done", "done"]) = "done"
    ∧ getTaskOverallStatus (mkTask ["not_started", "in_progress"]) = "in_progress"
    ∧ getTaskOverallStatus (mkTask []) = "not_started"
    ∧ getTaskOverallStatus (mkTask ["done", "not_started"]) = "in_progress" := by
  refine ⟨?_, by decide, by decide, by decide, by decide, by decide⟩
  intro task
  by_cases hnil : task.checklist.length = 0
  · have h0 : task.checklist = [] := List.length_eq_zero.mp hnil
    simp [getTaskOverallStatus, claimAggregateStatus, h0]
  · simp only [getTaskOverallStatus, claimAggregateStatus]
    rw [if_neg hnil]
    have e1 : ((task.checklist.any fun item => item.status = "blocked") = true) ↔
        0 < (task.checklist.filter fun item => item.status = "blocked").length :=
      (filterLength_pos_iff_any _ _).symm
    have e2 : (task.checklist.length ≠ 0 ∧
        (task.checklist.all fun item => item.status = "done") = true) ↔
        (task.checklist.filter fun item => item.status = "done").length
          = task.checklist.length := by
      rw [and_iff_right hnil]
      exact (filterLength_eq_iff_all _ _).symm
    have e3 : ((task.checklist.any fun item => item.status ≠ "not_started") = true) ↔
        (task.checklist.filter fun item => item.status = "not_started").length
          < task.checklist.length := by
      rw [filterLength_lt_iff_any_not]
      simp [decide_not]
    simp only [e1, e2, e3]

/-- Claim C9: for every checklist, the aggregate status computed by
`getTaskOverallStatus` is never `final_check_awaiting`, even though
`getStatusColor` maps `final_check_awaiting` to blue (`0x3b82f6`) when
used directly. -/
theorem C9_final_check_never_aggregate :
    (∀ task : TaskDocument, getTaskOverallStatus task ≠ "final_check_awaiting")
    ∧ getStatusColor "final_check_awaiting" = 0x3b82f6 := by
  constructor
  · intro task
    simp only [getTaskOverallStatus]
    split_ifs <;> decide
  · decide

/-- Two renderer states that agree on every field except the marker
children, the registry and the allocation counter. -/
structure SameView (a b : RendererState) : Prop where
  hasPixiApp : a.hasPixiApp = b.hasPixiApp
  hasContentContainer : a.hasContentContainer = b.hasContentContainer
  hasMarkerContainer : a.hasMarkerContainer = b.hasMarkerContainer
  hasSprite : a.hasSprite = b.hasSprite
  pixiDestroyed : a.pixiDestroyed = b.pixiDestroyed
  appW : a.appW = b.appW
  appH : a.appH = b.appH
  texW : a.texW = b.texW
  texH : a.texH = b.texH
  spriteScale : a.spriteScale = b.spriteScale
  spriteX : a.spriteX = b.spriteX
  spriteY : a.spriteY = b.spriteY
  markerScale : a.markerScale = b.markerScale
  markerX : a.markerX = b.markerX
  markerY : a.markerY = b.markerY
  contentX : a.contentX = b.contentX
  contentY : a.contentY = b.contentY
  isDragging : a.isDragging = b.isDragging
  dragStart : a.dragStart = b.dragStart
  contentStartPos : a.contentStartPos = b.contentStartPos
  clickStartPosition : a.clickStartPosition = b.clickStartPosition

lemma SameView.rfl (a : RendererState) : SameView a a := by
  constructor <;> rfl

lemma SameView.trans {a b c : RendererState} (h1 : SameView a b)
    (h2 : SameView b c) : SameView a c := by
  constructor <;> first
    | exact h1.hasPixiApp.trans h2.hasPixiApp
    | exact h1.hasContentContainer.trans h2.hasContentContainer
    | exact h1.hasMarkerContainer.trans h2.hasMarkerContainer
    | exact h1.hasSprite.trans h2.hasSprite
    | exact h1.pixiDestroyed.trans h2.pixiDestroyed
    | exact h1.appW.trans h2.appW
    | exact h1.appH.trans h2.appH
    | exact h1.texW.trans h2.texW
    | exact h1.texH.trans h2.texH
    | exact h1.spriteScale.trans h2.spriteScale
    | exact h1.spriteX.trans h2.spriteX
    | exact h1.spriteY.trans h2.spriteY
    | exact h1.markerScale.trans h2.markerScale
    | exact h1.markerX.trans h2.markerX
    | exact h1.markerY.trans h2.markerY
    | exact h1.contentX.trans h2.contentX
    | exact h1.contentY.trans h2.contentY
    | exact h1.isDragging.trans h2.isDragging
    | exact h1.dragStart.trans h2.dragStart
    | exact h1.contentStartPos.trans h2.contentStartPos
    | exact h1.clickStartPosition.trans h2.clickStartPosition

lemma renderSingleMarker_sameView (st : RendererState) (t : TaskDocument) :
    SameView (renderSingleMarker st t) st := by
  constructor <;> (unfold renderSingleMarker; split_ifs <;> rfl)

lemma foldl_renderSingleMarker_sameView (tasks : List TaskDocument)
    (st : RendererState) :
    SameView (tasks.foldl renderSingleMarker st) st := by
  induction tasks generalizing st with
  | nil => exact SameView.rfl st
  | cons t ts ih =>
      exact (ih (renderSingleMarker st t)).trans (renderSingleMarker_sameView st t)

lemma renderAllMarkers_sameView (st : RendererState)
    (tasks : List TaskDocument) :
    SameView (renderAllMarkers st tasks) st := by
  unfold renderAllMarkers
  split_ifs
  · refine (foldl_renderSingleMarker_sameView tasks _).trans ?_
    constructor <;> rfl
  · exact SameView.rfl st

lemma goodState_of_sameView {a b : RendererState} (h : SameView a b)
    (hg : goodState b) : goodState a := by
  unfold goodState at hg ⊢
  rw [h.hasPixiApp, h.hasContentContainer, h.hasMarkerContainer, h.hasSprite,
    h.markerScale, h.markerX, h.markerY, h.spriteScale, h.spriteX, h.spriteY,
    h.texW, h.texH]
  exact hg

lemma getElementDimensions_fst (w h : ℚ) :
    (getElementDimensions w h).1 = if w = 0 then DEFAULT_WIDTH else w := rfl

lemma getElementDimensions_snd (w h : ℚ) :
    (getElementDimensions w h).2 = if h = 0 then DEFAULT_HEIGHT else h := rfl

lemma getElementDimensions_fst_pos (w h : ℚ) (hw : 0 ≤ w) :
    0 < (getElementDimensions w h).1 := by
  rw [getElementDimensions_fst]
  split_ifs with hz
  · norm_num [DEFAULT_WIDTH]
  · exact lt_of_le_of_ne hw (Ne.symm hz)

lemma getElementDimensions_snd_pos (w h : ℚ) (hh : 0 ≤ h) :
    0 < (getElementDimensions w h).2 := by
  rw [getElementDimensions_snd]
  split_ifs with hz
  · norm_num [DEFAULT_HEIGHT]
  · exact lt_of_le_of_ne hh (Ne.symm hz)

lemma fitScale_pos (w h tw th : ℚ) (hw : 0 ≤ w) (hh : 0 ≤ h)
    (htw : 0 < tw) (hth : 0 < th) :
    0 < min ((getElementDimensions w h).1 / tw) ((getElementDimensions w h).2 / th)
        * FLOOR_PLAN_SCALE_FACTOR := by
  have h1 := getElementDimensions_fst_pos w h hw
  have h2 := getElementDimensions_snd_pos w h hh
  have hmin : 0 < min ((getElementDimensions w h).1 / tw)
      ((getElementDimensions w h).2 / th) :=
    lt_min (div_pos h1 htw) (div_pos h2 hth)
  have hf : (0:ℚ) < FLOOR_PLAN_SCALE_FACTOR := by norm_num [FLOOR_PLAN_SCALE_FACTOR]
  exact mul_pos hmin hf

lemma goodState_initializeRenderer (hostW hostH texW texH : ℚ)
    (hw : 0 ≤ hostW) (hh : 0 ≤ hostH) (htw : 0 < texW) (hth : 0 < texH) :
    goodState (initializeRenderer hostW hostH texW texH) := by
  refine ⟨rfl, rfl, rfl, rfl, rfl, rfl, rfl, ?_, htw, hth⟩
  exact fitScale_pos hostW hostH texW texH hw hh htw hth

lemma goodState_applyOp (st : RendererState) (op : ViewportOp)
    (hg : goodState st) (hv : validOp op) : goodState (applyOp st op) := by
  obtain ⟨hpa, hcc, hmc, hsp, hms, hmx, hmy, hs, htw, hth⟩ := hg
  cases op with
  | pan dx dy =>
      exact ⟨hpa, hcc, hmc, hsp, hms, hmx, hmy, hs, htw, hth⟩
  | resizeTo w h =>
      obtain ⟨hw, hh⟩ := hv
      simp only [applyOp, resizeOp]
      rw [if_neg (not_not_intro hpa)]
      rw [if_pos (by exact ⟨hsp, hmc, hcc⟩)]
      refine ⟨hpa, hcc, hmc, hsp, rfl, rfl, rfl, ?_, htw, hth⟩
      exact fitScale_pos w h st.texW st.texH hw hh htw hth

lemma goodState_applyOps (st : RendererState) (ops : List ViewportOp)
    (hg : goodState st) (hv : ∀ op ∈ ops, validOp op) :
    goodState (applyOps st ops) := by
  induction ops generalizing st with
  | nil => exact hg
  | cons op rest ih =>
      exact ih (applyOp st op)
        (goodState_applyOp st op hg (hv op (List.mem_cons_self op rest)))
        (fun o ho => hv o (List.mem_cons_of_mem op ho))

lemma applyOp_markerChildren (st : RendererState) (op : ViewportOp) :
    (applyOp st op).markerChildren = st.markerChildren := by
  cases op with
  | pan dx dy => rfl
  | resizeTo w h =>
      simp only [applyOp, resizeOp]
      split_ifs <;> rfl

lemma applyOp_texW (st : RendererState) (op : ViewportOp) :
    (applyOp st op).texW = st.texW := by
  cases op with
  | pan dx dy => rfl
  | resizeTo w h =>
      simp only [applyOp, resizeOp]
      split_ifs <;> rfl

lemma applyOp_texH (st : RendererState) (op : ViewportOp) :
    (applyOp st op).texH = st.texH := by
  cases op with
  | pan dx dy => rfl
  | resizeTo w h =>
      simp only [applyOp, resizeOp]
      split_ifs <;> rfl

lemma applyOps_markerChildren (st : RendererState) (ops : List ViewportOp) :
    (applyOps st ops).markerChildren = st.markerChildren := by
  induction ops generalizing st with
  | nil => rfl
  | cons op rest ih =>
      rw [applyOps, List.foldl_cons, ← applyOps, ih, applyOp_markerChildren]

lemma applyOps_texW (st : RendererState) (ops : List ViewportOp) :
    (applyOps st ops).texW = st.texW := by
  induction ops generalizing st with
  | nil => rfl
  | cons op rest ih =>
      rw [applyOps, List.foldl_cons, ← applyOps, ih, applyOp_texW]

lemma applyOps_texH (st : RendererState) (ops : List ViewportOp) :
    (applyOps st ops).texH = st.texH := by
  induction ops generalizing st with
  | nil => rfl
  | cons op rest ih =>
      rw [applyOps, List.foldl_cons, ← applyOps, ih, applyOp_texH]

lemma validate_of_unit_square (x y : ℚ) (hx0 : 0 ≤ x) (hx1 : x ≤ 1)
    (hy0 : 0 ≤ y) (hy1 : y ≤ 1) :
    validateRelativeCoordinates x y = true := by
  unfold validateRelativeCoordinates
  rw [if_neg]
  push_neg
  exact ⟨hx0, hx1, hy0, hy1⟩

/-- Round-trip of a single marker position through
`screenToFloorPlanCoords`, in any good state whose texture dimensions
place the marker at the local coordinates `renderSingleMarker` uses. -/
lemma roundtrip_marker (st : RendererState) (hg : goodState st) (x y : ℚ)
    (hx0 : 0 ≤ x) (hx1 : x ≤ 1) (hy0 : 0 ≤ y) (hy1 : y ≤ 1) (m : MarkerObj)
    (hmx : m.x = (x - 1 / 2) * st.texW) (hmy : m.y = (y - 1 / 2) * st.texH) :
    screenToFloorPlanCoords st (markerGlobalPos st m).x (markerGlobalPos st m).y
      = some { x := x, y := y } := by
  obtain ⟨hpa, hcc, hmc, hsp, hms, hmx2, hmy2, hs, htw, hth⟩ := hg
  have hsne : st.spriteScale ≠ 0 := ne_of_gt hs
  have htwne : st.texW ≠ 0 := ne_of_gt htw
  have hthne : st.texH ≠ 0 := ne_of_gt hth
  have hrx : relCoordX st (markerGlobalPos st m).x = x := by
    unfold relCoordX boundsX markerGlobalPos
    rw [hmx, hms, hmx2]
    field_simp
    ring
  have hry : relCoordY st (markerGlobalPos st m).y = y := by
    unfold relCoordY boundsY markerGlobalPos
    rw [hmy, hms, hmy2]
    field_simp
    ring
  unfold screenToFloorPlanCoords
  rw [if_neg (by simp [hsp, hcc])]
  simp only [hrx, hry]
  rw [if_neg (by simp [validate_of_unit_square x y hx0 hx1 hy0 hy1])]

/-- Claim C1: for every task coordinate `(x, y)` in the closed unit
square, after `renderAllMarkers` places the task's marker and after any
sequence of drag-pan and resize operations, mapping the marker's
resulting screen position back through `screenToFloorPlanCoords`
recovers exactly `(x, y)` (the embedding computes in exact rational
arithmetic, so the float tolerance is 0). -/
theorem C1_coordinate_roundtrip (hostW hostH texW texH x y : ℚ) (tid : String)
    (checklist : List ChecklistItem) (ops : List ViewportOp) (st : RendererState)
    (hw : 0 ≤ hostW) (hh : 0 ≤ hostH) (htw : 0 < texW) (hth : 0 < texH)
    (hx0 : 0 ≤ x) (hx1 : x ≤ 1) (hy0 : 0 ≤ y) (hy1 : y ≤ 1)
    (hops : ∀ op ∈ ops, validOp op)
    (hst : st = applyOps
      (renderAllMarkers (initializeRenderer hostW hostH texW texH)
        [{ id := tid, coordinates := { x := x, y := y }, checklist := checklist }])
      ops) :
    st.markerChildren ≠ [] ∧
    ∀ m ∈ st.markerChildren,
      screenToFloorPlanCoords st (markerGlobalPos st m).x (markerGlobalPos st m).y
        = some { x := x, y := y } := by
  subst hst
  have hgood : goodState (applyOps
      (renderAllMarkers (initializeRenderer hostW hostH texW texH)
        [{ id := tid, coordinates := { x := x, y := y }, checklist := checklist }]) ops) :=
    goodState_applyOps _ ops
      (goodState_of_sameView (renderAllMarkers_sameView _ _)
        (goodState_initializeRenderer hostW hostH texW texH hw hh htw hth))
      hops
  have htexW : (applyOps
      (renderAllMarkers (initializeRenderer hostW hostH texW texH)
        [{ id := tid, coordinates := { x := x, y := y }, checklist := checklist }]) ops).texW
      = texW := by
    rw [applyOps_texW, (renderAllMarkers_sameView _ _).texW]
    rfl
  have htexH : (applyOps
      (renderAllMarkers (initializeRenderer hostW hostH texW texH)
        [{ id := tid, coordinates := { x := x, y := y }, checklist := checklist }]) ops).texH
      = texH := by
    rw [applyOps_texH, (renderAllMarkers_sameView _ _).texH]
    rfl
  have hch : (applyOps
      (renderAllMarkers (initializeRenderer hostW hostH texW texH)
        [{ id := tid, coordinates := { x := x, y := y }, checklist := checklist }]) ops).markerChildren
      = [{ tag := 0, x := (x - 1 / 2) * texW, y := (y - 1 / 2) * texH,
           status := getTaskOverallStatus
             { id := tid, coordinates := { x := x, y := y }, checklist := checklist } }] := by
    rw [applyOps_markerChildren]
    simp [renderAllMarkers, renderSingleMarker, initializeRenderer]
  refine ⟨by rw [hch]; simp, ?_⟩
  intro m hm
  rw [hch] at hm
  simp only [List.mem_singleton] at hm
  subst hm
  exact roundtrip_marker _ hgood x y hx0 hx1 hy0 hy1 _ (by rw [htexW]) (by rw [htexH])

/-- Concrete task used by several witnesses. -/
def demoTask : TaskDocument :=
  { id := "t", coordinates := { x := 1/4, y := 1/3 }, checklist := [] }

/-- Concrete post-gesture state used by the C1 witness. -/
def demoStateC1 : RendererState :=
  applyOps (renderAllMarkers (initializeRenderer 800 600 800 600) [demoTask])
    [ViewportOp.pan 7 3, ViewportOp.resizeTo 400 300]

/-- The marker `renderAllMarkers` creates for `demoTask`. -/
def demoMarkerC1 : MarkerObj :=
  { tag := 0, x := (1/4 - 1/2) * 800, y := (1/3 - 1/2) * 600,
    status := "not_started" }

lemma demoStateC1_children : demoStateC1.markerChildren = [demoMarkerC1] := by
  norm_num [demoStateC1, demoTask, demoMarkerC1, applyOps, applyOp, resizeOp,
    renderAllMarkers, renderSingleMarker, initializeRenderer,
    getElementDimensions, getTaskOverallStatus, DEFAULT_WIDTH, DEFAULT_HEIGHT,
    FLOOR_PLAN_SCALE_FACTOR]

theorem C1_coordinate_roundtrip_witness :
    (0:ℚ) ≤ 1/4 ∧ (1/4:ℚ) ≤ 1 ∧ (0:ℚ) ≤ 1/3 ∧ (1/3:ℚ) ≤ 1 ∧
    demoMarkerC1 ∈ demoStateC1.markerChildren ∧
    screenToFloorPlanCoords demoStateC1
      (markerGlobalPos demoStateC1 demoMarkerC1).x
      (markerGlobalPos demoStateC1 demoMarkerC1).y
      = some { x := 1/4, y := 1/3 } := by
  have hmem : demoMarkerC1 ∈ demoStateC1.markerChildren := by
    rw [demoStateC1_children]
    exact List.mem_singleton.mpr rfl
  refine ⟨by norm_num, by norm_num, by norm_num, by norm_num, hmem, ?_⟩
  refine (C1_coordinate_roundtrip 800 600 800 600 (1/4) (1/3) "t" []
    [ViewportOp.pan 7 3, ViewportOp.resizeTo 400 300] demoStateC1
    (by norm_num) (by norm_num) (by norm_num) (by norm_num)
    (by norm_num) (by norm_num) (by norm_num) (by norm_num)
    ?_ rfl).2 demoMarkerC1 hmem
  intro op hop
  simp only [List.mem_cons, List.mem_singleton] at hop
  rcases hop with h | h | h
  · subst h; exact trivial
  · subst h; exact ⟨by norm_num, by norm_num⟩
  · cases h

/-- Claim C4 counterexample: the claim says `resize(400,300)` on a
1600×1200 background already yields scale `0.45`; the code computes
`min(400/1600, 300/1200) * 0.9 = 0.225 = 9/40` there, which is not
`9/20 = 0.45`. -/
theorem C4_counterexample :
    (resizeOp (initializeRenderer 800 600 1600 1200) 400 300).spriteScale = 9/40
    ∧ ((9:ℚ)/40 ≠ 9/20) := by
  constructor
  · simp only [resizeOp, initializeRenderer, getElementDimensions,
      DEFAULT_WIDTH, DEFAULT_HEIGHT, FLOOR_PLAN_SCALE_FACTOR]
    norm_num
  · norm_num

/-- Claim C4 (amended): for a 1600×1200 background, `resize(400,300)`
yields scale `min(400/1600, 300/1200) * 0.9 = 0.225 = 9/40` and the
subsequent `resize(800,600)` yields
`min(800/1600, 600/1200) * 0.9 = 0.45 = 9/20`; after each resize every
marker still maps back to its task's normalized coordinates. -/
theorem C4_resize_stability_amended (hostW hostH x y : ℚ) (tid : String)
    (checklist : List ChecklistItem) (st0 st1 st2 : RendererState)
    (hw : 0 ≤ hostW) (hh : 0 ≤ hostH)
    (hx0 : 0 ≤ x) (hx1 : x ≤ 1) (hy0 : 0 ≤ y) (hy1 : y ≤ 1)
    (h0 : st0 = renderAllMarkers (initializeRenderer hostW hostH 1600 1200)
      [{ id := tid, coordinates := { x := x, y := y }, checklist := checklist }])
    (h1 : st1 = resizeOp st0 400 300)
    (h2 : st2 = resizeOp st1 800 600) :
    st1.spriteScale = 9/40 ∧ st2.spriteScale = 9/20 ∧
    (∀ m ∈ st1.markerChildren,
      screenToFloorPlanCoords st1 (markerGlobalPos st1 m).x
        (markerGlobalPos st1 m).y = some { x := x, y := y }) ∧
    (∀ m ∈ st2.markerChildren,
      screenToFloorPlanCoords st2 (markerGlobalPos st2 m).x
        (markerGlobalPos st2 m).y = some { x := x, y := y }) := by
  have hg0 : goodState st0 := by
    rw [h0]
    exact goodState_of_sameView (renderAllMarkers_sameView _ _)
      (goodState_initializeRenderer hostW hostH 1600 1200 hw hh
        (by norm_num) (by norm_num))
  obtain ⟨hpa0, hcc0, hmc0, hsp0, _, _, _, _, _, _⟩ := hg0
  have hg0' : goodState st0 := by
    rw [h0]
    exact goodState_of_sameView (renderAllMarkers_sameView _ _)
      (goodState_initializeRenderer hostW hostH 1600 1200 hw hh
        (by norm_num) (by norm_num))
  have ht0W : st0.texW = 1600 := by
    rw [h0, (renderAllMarkers_sameView _ _).texW]
    rfl
  have ht0H : st0.texH = 1200 := by
    rw [h0, (renderAllMarkers_sameView _ _).texH]
    rfl
  have e1 : st1 = applyOp st0 (ViewportOp.resizeTo 400 300) := h1
  have e2 : st2 = applyOp st1 (ViewportOp.resizeTo 800 600) := h2
  have hg1 : goodState st1 := by
    rw [e1]
    exact goodState_applyOp st0 _ hg0' ⟨by norm_num, by norm_num⟩
  have hg2 : goodState st2 := by
    rw [e2]
    exact goodState_applyOp st1 _ hg1 ⟨by norm_num, by norm_num⟩
  have ht1W : st1.texW = 1600 := by rw [e1, applyOp_texW, ht0W]
  have ht1H : st1.texH = 1200 := by rw [e1, applyOp_texH, ht0H]
  have ht2W : st2.texW = 1600 := by rw [e2, applyOp_texW, ht1W]
  have ht2H : st2.texH = 1200 := by rw [e2, applyOp_texH, ht1H]
  have hflags1 := hg1
  obtain ⟨hpa1, hcc1, hmc1, hsp1, _, _, _, _, _, _⟩ := hflags1
  have hs1 : st1.spriteScale = 9/40 := by
    rw [h1]
    simp only [resizeOp]
    rw [if_neg (not_not_intro hpa0), if_pos ⟨hsp0, hmc0, hcc0⟩]
    simp only [getElementDimensions, ht0W, ht0H]
    norm_num [DEFAULT_WIDTH, DEFAULT_HEIGHT, FLOOR_PLAN_SCALE_FACTOR]
  have hs2 : st2.spriteScale = 9/20 := by
    rw [h2]
    simp only [resizeOp]
    rw [if_neg (not_not_intro hpa1), if_pos ⟨hsp1, hmc1, hcc1⟩]
    simp only [getElementDimensions, ht1W, ht1H]
    norm_num [DEFAULT_WIDTH, DEFAULT_HEIGHT, FLOOR_PLAN_SCALE_FACTOR]
  have hch0 : st0.markerChildren
      = [{ tag := 0, x := (x - 1 / 2) * 1600, y := (y - 1 / 2) * 1200,
           status := getTaskOverallStatus
             { id := tid, coordinates := { x := x, y := y },
               checklist := checklist } }] := by
    rw [h0]
    simp [renderAllMarkers, renderSingleMarker, initializeRenderer]
  have hch1 : st1.markerChildren = st0.markerChildren := by
    rw [e1, applyOp_markerChildren]
  have hch2 : st2.markerChildren = st0.markerChildren := by
    rw [e2, applyOp_markerChildren, hch1]
  refine ⟨hs1, hs2, ?_, ?_⟩
  · intro m hm
    rw [hch1, hch0] at hm
    simp only [List.mem_singleton] at hm
    subst hm
    exact roundtrip_marker st1 hg1 x y hx0 hx1 hy0 hy1 _
      (by rw [ht1W]) (by rw [ht1H])
  · intro m hm
    rw [hch2, hch0] at hm
    simp only [List.mem_singleton] at hm
    subst hm
    exact roundtrip_marker st2 hg2 x y hx0 hx1 hy0 hy1 _
      (by rw [ht2W]) (by rw [ht2H])

/-- Concrete state after init (1600×1200 texture) + renderAll + resize(400,300). -/
def demoStateC4a : RendererState :=
  resizeOp (renderAllMarkers (initializeRenderer 800 600 1600 1200) [demoTask]) 400 300

/-- Concrete state after the further resize(800,600). -/
def demoStateC4b : RendererState :=
  resizeOp demoStateC4a 800 600

/-- The marker `renderAllMarkers` creates for `demoTask` on the
1600×1200 texture. -/
def demoMarkerC4 : MarkerObj :=
  { tag := 0, x := (1/4 - 1/2) * 1600, y := (1/3 - 1/2) * 1200,
    status := "not_started" }

lemma demoStateC4b_children : demoStateC4b.markerChildren = [demoMarkerC4] := by
  norm_num [demoStateC4b, demoStateC4a, demoTask, demoMarkerC4, resizeOp,
    renderAllMarkers, renderSingleMarker, initializeRenderer,
    getElementDimensions, getTaskOverallStatus, DEFAULT_WIDTH, DEFAULT_HEIGHT,
    FLOOR_PLAN_SCALE_FACTOR]

theorem C4_resize_stability_witness :
    demoStateC4a.spriteScale = 9/40 ∧ demoStateC4b.spriteScale = 9/20 ∧
    demoMarkerC4 ∈ demoStateC4b.markerChildren ∧
    screenToFloorPlanCoords demoStateC4b
      (markerGlobalPos demoStateC4b demoMarkerC4).x
      (markerGlobalPos demoStateC4b demoMarkerC4).y
      = some { x := 1/4, y := 1/3 } := by
  have hmem : demoMarkerC4 ∈ demoStateC4b.markerChildren := by
    rw [demoStateC4b_children]
    exact List.mem_singleton.mpr rfl
  have H := C4_resize_stability_amended 800 600 (1/4) (1/3) "t" []
    (renderAllMarkers (initializeRenderer 800 600 1600 1200) [demoTask])
    demoStateC4a demoStateC4b
    (by norm_num) (by norm_num) (by norm_num) (by norm_num) (by norm_num)
    (by norm_num) rfl rfl rfl
  exact ⟨H.1, H.2.1, hmem, H.2.2.2 demoMarkerC4 hmem⟩

/-- Claim C5: the code violates post-destroy safety.  `destroy()` only
calls `pixiApp.destroy(true)` and clears no reference and no flag, so
`renderAllMarkers`, `repaintChangedMarkers` and `resize` called after
`destroy()` pass their guards and still mutate observable renderer
state: the registry gains an entry and `resize` changes the stored
scale. -/
theorem C5_post_destroy_not_noop :
    (renderAllMarkers (destroy (initializeRenderer 800 600 800 600))
        [{ id := "t1", coordinates := { x := 1/2, y := 1/2 }, checklist := [] }]).markerTextures
      ≠ (destroy (initializeRenderer 800 600 800 600)).markerTextures
    ∧ (repaintChangedMarkers (destroy (initializeRenderer 800 600 800 600)) ["t1"]
        [{ id := "t1", coordinates := { x := 1/2, y := 1/2 }, checklist := [] }]).markerTextures
      ≠ (destroy (initializeRenderer 800 600 800 600)).markerTextures
    ∧ (resizeOp (destroy (initializeRenderer 800 600 800 600)) 400 300).spriteScale
      ≠ (destroy (initializeRenderer 800 600 800 600)).spriteScale := by
  refine ⟨?_, ?_, ?_⟩
  · simp [renderAllMarkers, renderSingleMarker, destroy, initializeRenderer,
      mapSet, getElementDimensions, getTaskOverallStatus]
  · simp [repaintChangedMarkers, repaintOne, renderSingleMarker, destroy,
      initializeRenderer, mapSet, mapGet, mapDelete, getElementDimensions,
      getTaskOverallStatus]
  · simp only [resizeOp, destroy, initializeRenderer, getElementDimensions,
      DEFAULT_WIDTH, DEFAULT_HEIGHT, FLOOR_PLAN_SCALE_FACTOR]
    norm_num

lemma processPointerDown_eq (st : RendererState) (p : Vec2)
    (hs : st.hasSprite = true) (hc : st.hasContentContainer = true) :
    processPointerDown st p =
      { st with clickStartPosition := some p, isDragging := true,
                dragStart := some p,
                contentStartPos := some { x := st.contentX, y := st.contentY } } := by
  simp [processPointerDown, hs, hc]

/-- Claim C7: the gesture down (100,100) → move (110,100) → up (110,100)
(10 px, above the 5 px threshold) emits no create-task request and
shifts the content container by exactly (+10, 0). -/
theorem C7_pan_gesture (st : RendererState)
    (hs : st.hasSprite = true) (hc : st.hasContentContainer = true) :
    (processGesture st { x := 100, y := 100 } [{ x := 110, y := 100 }]
        { x := 110, y := 100 }).2 = none
    ∧ (processGesture st { x := 100, y := 100 } [{ x := 110, y := 100 }]
        { x := 110, y := 100 }).1.contentX = st.contentX + 10
    ∧ (processGesture st { x := 100, y := 100 } [{ x := 110, y := 100 }]
        { x := 110, y := 100 }).1.contentY = st.contentY := by
  have hd := processPointerDown_eq st { x := 100, y := 100 } hs hc
  unfold processGesture
  rw [hd]
  norm_num [processPointerMove, processPointerUp, hs, hc]

theorem C7_pan_gesture_witness :
    (initializeRenderer 800 600 800 600).hasSprite = true ∧
    (initializeRenderer 800 600 800 600).hasContentContainer = true ∧
    ((processGesture (initializeRenderer 800 600 800 600) { x := 100, y := 100 }
        [{ x := 110, y := 100 }] { x := 110, y := 100 }).2 = none
      ∧ (processGesture (initializeRenderer 800 600 800 600) { x := 100, y := 100 }
        [{ x := 110, y := 100 }] { x := 110, y := 100 }).1.contentX
          = (initializeRenderer 800 600 800 600).contentX + 10
      ∧ (processGesture (initializeRenderer 800 600 800 600) { x := 100, y := 100 }
        [{ x := 110, y := 100 }] { x := 110, y := 100 }).1.contentY
          = (initializeRenderer 800 600 800 600).contentY) :=
  ⟨rfl, rfl, C7_pan_gesture (initializeRenderer 800 600 800 600) rfl rfl⟩

lemma processPointerMove_gesture_fields (st : RendererState) (p : Vec2) :
    (processPointerMove st p).clickStartPosition = st.clickStartPosition
    ∧ (processPointerMove st p).hasSprite = st.hasSprite
    ∧ (processPointerMove st p).hasContentContainer = st.hasContentContainer := by
  unfold processPointerMove
  cases hds : st.dragStart with
  | none => split_ifs <;> exact ⟨rfl, rfl, rfl⟩
  | some ds =>
      cases hcs : st.contentStartPos with
      | none => split_ifs <;> exact ⟨rfl, rfl, rfl⟩
      | some cs =>
          dsimp only
          split_ifs <;> simp

lemma foldl_processPointerMove_gesture_fields (moves : List Vec2)
    (st : RendererState) :
    ((moves.foldl processPointerMove st).clickStartPosition = st.clickStartPosition)
    ∧ ((moves.foldl processPointerMove st).hasSprite = st.hasSprite)
    ∧ ((moves.foldl processPointerMove st).hasContentContainer = st.hasContentContainer) := by
  induction moves generalizing st with
  | nil => exact ⟨rfl, rfl, rfl⟩
  | cons q qs ih =>
      obtain ⟨i1, i2, i3⟩ := ih (processPointerMove st q)
      obtain ⟨j1, j2, j3⟩ := processPointerMove_gesture_fields st q
      exact ⟨by rw [List.foldl_cons, i1, j1],
             by rw [List.foldl_cons, i2, j2],
             by rw [List.foldl_cons, i3, j3]⟩

/-- The fields `screenToFloorPlanCoords` reads. -/
structure SamePose (a b : RendererState) : Prop where
  hasSprite : a.hasSprite = b.hasSprite
  hasContentContainer : a.hasContentContainer = b.hasContentContainer
  contentX : a.contentX = b.contentX
  contentY : a.contentY = b.contentY
  texW : a.texW = b.texW
  texH : a.texH = b.texH
  spriteScale : a.spriteScale = b.spriteScale
  spriteX : a.spriteX = b.spriteX
  spriteY : a.spriteY = b.spriteY

lemma screenToFloorPlanCoords_congr {a b : RendererState} (h : SamePose a b)
    (sx sy : ℚ) :
    screenToFloorPlanCoords a sx sy = screenToFloorPlanCoords b sx sy := by
  unfold screenToFloorPlanCoords relCoordX relCoordY boundsX boundsY
  rw [h.hasSprite, h.hasContentContainer, h.contentX, h.contentY, h.texW,
    h.texH, h.spriteScale, h.spriteX, h.spriteY]

lemma processPointerUp_fst_pose (st : RendererState) (p : Vec2) :
    SamePose (processPointerUp st p).1 st := by
  constructor <;>
    (unfold processPointerUp
     split_ifs <;>
       (cases hcs : st.clickStartPosition <;> simp [hcs] <;> split_ifs <;> simp))

lemma processPointerUp_snd (st : RendererState) (p : Vec2) (c : Vec2)
    (hs : st.hasSprite = true) (hcs : st.clickStartPosition = some c) :
    (processPointerUp st p).2 =
      if (p.x - c.x) * (p.x - c.x) + (p.y - c.y) * (p.y - c.y) ≤ 25 then
        screenToFloorPlanCoords st p.x p.y
      else none := by
  unfold processPointerUp
  simp only [hs, hcs, if_true]
  split_ifs <;> simp

lemma processPointerDown_pose (st : RendererState) (p : Vec2) :
    SamePose (processPointerDown st p) st := by
  constructor <;> (unfold processPointerDown; dsimp only; split_ifs <;> rfl)

/-- Claim C3 (amended): a create-task request is emitted on pointer-up
iff the distance from the pointer-down position to the pointer-up
position (not the maximal excursion during the gesture) is within the
5 px threshold and the up position converts to valid normalized
coordinates; `enableClick` never consults intermediate movement. -/
theorem C3_click_classification_amended (st : RendererState) (down up : Vec2)
    (moves : List Vec2) (hs : st.hasSprite = true)
    (hc : st.hasContentContainer = true) :
    (processGesture st down moves up).2 =
      if dist2 up down ≤ 25 then
        screenToFloorPlanCoords (processGesture st down moves up).1 up.x up.y
      else none := by
  unfold processGesture
  rw [processPointerDown_eq st down hs hc]
  obtain ⟨hclick, hsp, hcc⟩ := foldl_processPointerMove_gesture_fields moves
    { st with clickStartPosition := some down, isDragging := true,
              dragStart := some down,
              contentStartPos := some { x := st.contentX, y := st.contentY } }
  rw [processPointerUp_snd _ up down (by rw [hsp]; exact hs) (by rw [hclick])]
  rw [screenToFloorPlanCoords_congr (processPointerUp_fst_pose _ up)]
  simp only [dist2]

/-- Claim C3 counterexample: the gesture down (400,300) → move (450,300)
(50 px, far above the threshold) → move back to (402,301) → up
(402,301) exceeded the 5 px threshold during the gesture, yet the code
still emits a create-task request, because only the down-to-up distance
is checked. -/
theorem C3_counterexample :
    gestureEverExceededThreshold { x := 400, y := 300 }
      [{ x := 450, y := 300 }, { x := 402, y := 301 }] { x := 402, y := 301 } = true
    ∧ (processGesture (initializeRenderer 800 600 800 600) { x := 400, y := 300 }
        [{ x := 450, y := 300 }, { x := 402, y := 301 }] { x := 402, y := 301 }).2
      = some { x := 13/30, y := 271/540 } := by
  constructor
  · norm_num [gestureEverExceededThreshold, dist2]
  · norm_num [processGesture, processPointerDown, processPointerMove,
      processPointerUp, initializeRenderer, screenToFloorPlanCoords,
      relCoordX, relCoordY, boundsX, boundsY, validateRelativeCoordinates,
      getElementDimensions, DEFAULT_WIDTH, DEFAULT_HEIGHT,
      FLOOR_PLAN_SCALE_FACTOR]

theorem C3_click_classification_witness :
    (initializeRenderer 800 600 800 600).hasSprite = true ∧
    (initializeRenderer 800 600 800 600).hasContentContainer = true ∧
    (processGesture (initializeRenderer 800 600 800 600) { x := 100, y := 100 }
        [{ x := 102, y := 101 }] { x := 102, y := 101 }).2 =
      (if dist2 { x := 102, y := 101 } { x := 100, y := 100 } ≤ 25 then
        screenToFloorPlanCoords
          (processGesture (initializeRenderer 800 600 800 600) { x := 100, y := 100 }
            [{ x := 102, y := 101 }] { x := 102, y := 101 }).1 102 101
      else none) :=
  ⟨rfl, rfl,
    C3_click_classification_amended (initializeRenderer 800 600 800 600)
      { x := 100, y := 100 } { x := 102, y := 101 } [{ x := 102, y := 101 }] rfl rfl⟩

lemma validate_eq_false_iff (a b : ℚ) :
    validateRelativeCoordinates a b = false ↔
      (a < 0 ∨ a > 1 ∨ b < 0 ∨ b > 1) := by
  unfold validateRelativeCoordinates
  split_ifs with h
  · simp [h]
  · simp [h]

/-- Claim C10: `screenToFloorPlanCoords` returns null exactly when the
computed relative coordinates fall strictly outside the closed unit
square; a position mapping exactly onto the boundary (relative
coordinate 0 or 1) is valid, and a qualifying click there emits a
create-task request. -/
theorem C10_boundary_inclusive (st : RendererState) (sx sy : ℚ)
    (hs : st.hasSprite = true) (hc : st.hasContentContainer = true) :
    (screenToFloorPlanCoords st sx sy = none ↔
      (relCoordX st sx < 0 ∨ relCoordX st sx > 1 ∨
       relCoordY st sy < 0 ∨ relCoordY st sy > 1))
    ∧ ((relCoordX st sx = 0 ∨ relCoordX st sx = 1) →
        0 ≤ relCoordY st sy → relCoordY st sy ≤ 1 →
        ∀ down : Vec2, dist2 { x := sx, y := sy } down ≤ 25 →
          (processGesture st down [] { x := sx, y := sy }).2
            = some { x := relCoordX st sx, y := relCoordY st sy }) := by
  constructor
  · rw [← validate_eq_false_iff]
    unfold screenToFloorPlanCoords
    rw [if_neg (by simp [hs, hc])]
    cases hvb : validateRelativeCoordinates (relCoordX st sx) (relCoordY st sy) <;>
      simp [hvb]
  · intro hx hy0 hy1 down hdist
    have hx0 : 0 ≤ relCoordX st sx := by rcases hx with h | h <;> rw [h] <;> norm_num
    have hx1 : relCoordX st sx ≤ 1 := by rcases hx with h | h <;> rw [h] <;> norm_num
    have hcoords : screenToFloorPlanCoords st sx sy
        = some { x := relCoordX st sx, y := relCoordY st sy } := by
      unfold screenToFloorPlanCoords
      rw [if_neg (by simp [hs, hc])]
      rw [if_neg (by simp [validate_of_unit_square _ _ hx0 hx1 hy0 hy1])]
    unfold processGesture
    rw [List.foldl_nil]
    rw [processPointerUp_snd _ _ down
      (by rw [(processPointerDown_pose st down).hasSprite]; exact hs)
      (by rw [processPointerDown_eq st down hs hc])]
    rw [if_pos (by simpa [dist2] using hdist)]
    rw [screenToFloorPlanCoords_congr (processPointerDown_pose st down)]
    simpa using hcoords

theorem C10_boundary_witness :
    (initializeRenderer 800 600 800 600).hasSprite = true ∧
    relCoordX (initializeRenderer 800 600 800 600) 40 = 0 ∧
    relCoordY (initializeRenderer 800 600 800 600) 300 = 1/2 ∧
    (processGesture (initializeRenderer 800 600 800 600) { x := 40, y := 300 } []
      { x := 40, y := 300 }).2 = some { x := 0, y := 1/2 } := by
  have hx : relCoordX (initializeRenderer 800 600 800 600) 40 = 0 := by
    norm_num [relCoordX, boundsX, initializeRenderer, getElementDimensions,
      DEFAULT_WIDTH, DEFAULT_HEIGHT, FLOOR_PLAN_SCALE_FACTOR]
  have hy : relCoordY (initializeRenderer 800 600 800 600) 300 = 1/2 := by
    norm_num [relCoordY, boundsY, initializeRenderer, getElementDimensions,
      DEFAULT_WIDTH, DEFAULT_HEIGHT, FLOOR_PLAN_SCALE_FACTOR]
  refine ⟨rfl, hx, hy, ?_⟩
  have H := (C10_boundary_inclusive (initializeRenderer 800 600 800 600) 40 300
    rfl rfl).2 (Or.inl hx) (by rw [hy]; norm_num) (by rw [hy]; norm_num)
    { x := 40, y := 300 } (by norm_num [dist2])
  rw [H, hx, hy]

/-- The set of task ids registered in `markerTextures`. -/
def registryKeys (st : RendererState) : List String :=
  st.markerTextures.map Prod.fst

lemma any_key_iff (m : List (String × MarkerObj)) (k : String) :
    (m.any fun p => p.1 = k) = true ↔ k ∈ m.map Prod.fst := by
  rw [List.any_eq_true]
  constructor
  · rintro ⟨p, hp, he⟩
    exact List.mem_map.mpr ⟨p, hp, by simpa using he⟩
  · intro hmem
    obtain ⟨p, hp, he⟩ := List.mem_map.mp hmem
    exact ⟨p, hp, by simpa using he⟩

lemma keys_mapSet_of_mem (m : List (String × MarkerObj)) (k : String)
    (v : MarkerObj) (h : (m.any fun p => p.1 = k) = true) :
    (mapSet m k v).map Prod.fst = m.map Prod.fst := by
  unfold mapSet
  rw [if_pos h, List.map_map]
  refine List.map_congr_left fun p hp => ?_
  by_cases hpk : p.1 = k
  · simp [hpk]
  · simp [hpk]

lemma keys_mapSet_of_not_mem (m : List (String × MarkerObj)) (k : String)
    (v : MarkerObj) (h : ¬ (m.any fun p => p.1 = k) = true) :
    (mapSet m k v).map Prod.fst = m.map Prod.fst ++ [k] := by
  unfold mapSet
  rw [if_neg h, List.map_append]
  rfl

lemma mem_keys_mapSet (m : List (String × MarkerObj)) (k a : String)
    (v : MarkerObj) :
    a ∈ (mapSet m k v).map Prod.fst ↔ a ∈ m.map Prod.fst ∨ a = k := by
  by_cases h : (m.any fun p => p.1 = k) = true
  · rw [keys_mapSet_of_mem m k v h]
    have hk : k ∈ m.map Prod.fst := (any_key_iff m k).mp h
    constructor
    · exact Or.inl
    · rintro (ha | rfl)
      · exact ha
      · exact hk
  · rw [keys_mapSet_of_not_mem m k v h]
    simp

lemma nodup_keys_mapSet (m : List (String × MarkerObj)) (k : String)
    (v : MarkerObj) (h : (m.map Prod.fst).Nodup) :
    ((mapSet m k v).map Prod.fst).Nodup := by
  by_cases hm : (m.any fun p => p.1 = k) = true
  · rw [keys_mapSet_of_mem m k v hm]
    exact h
  · rw [keys_mapSet_of_not_mem m k v hm]
    have hk : k ∉ m.map Prod.fst := fun hmem => hm ((any_key_iff m k).mpr hmem)
    simp [List.nodup_append, h, hk]

lemma keys_mapDelete (m : List (String × MarkerObj)) (k : String) :
    (mapDelete m k).map Prod.fst = (m.map Prod.fst).filter fun a => a ≠ k := by
  induction m with
  | nil => rfl
  | cons p ps ih =>
      by_cases hp : p.1 = k
      · simp only [mapDelete, List.filter_cons, decide_not, hp] at ih ⊢
        simp [List.filter_cons, hp, ih]
      · simp only [mapDelete, List.filter_cons, decide_not, hp] at ih ⊢
        simp [hp, ih]

lemma mapGet_eq_none_iff (m : List (String × MarkerObj)) (k : String) :
    mapGet m k = none ↔ k ∉ m.map Prod.fst := by
  unfold mapGet
  rw [Option.map_eq_none', List.find?_eq_none]
  constructor
  · intro h hmem
    obtain ⟨p, hp, he⟩ := List.mem_map.mp hmem
    have hp2 := h p hp
    simp only [decide_eq_true_eq] at hp2
    exact hp2 he
  · intro h p hp
    simp only [decide_eq_true_eq]
    intro hpk
    exact h (List.mem_map.mpr ⟨p, hp, hpk⟩)

lemma mapDelete_of_get_none (m : List (String × MarkerObj)) (k : String)
    (h : mapGet m k = none) : mapDelete m k = m := by
  unfold mapDelete
  refine List.filter_eq_self.mpr fun p hp => ?_
  have := (mapGet_eq_none_iff m k).mp h
  simp only [decide_eq_true_eq]
  intro hpk
  exact this (List.mem_map.mpr ⟨p, hp, hpk⟩)

lemma mapGet_mapDelete (m : List (String × MarkerObj)) (k : String) :
    mapGet (mapDelete m k) k = none := by
  rw [mapGet_eq_none_iff, keys_mapDelete]
  simp

lemma renderSingleMarker_effect (st : RendererState) (t : TaskDocument)
    (hmc : st.hasMarkerContainer = true) (hsp : st.hasSprite = true) :
    ∃ v : MarkerObj,
      (renderSingleMarker st t).markerTextures = mapSet st.markerTextures t.id v
      ∧ (renderSingleMarker st t).markerChildren = st.markerChildren ++ [v] := by
  unfold renderSingleMarker
  rw [if_neg (by simp [hmc, hsp])]
  exact ⟨_, rfl, rfl⟩

lemma foldl_renderSingleMarker_registry (tasks : List TaskDocument)
    (st : RendererState) (hmc : st.hasMarkerContainer = true)
    (hsp : st.hasSprite = true) :
    (∀ a, a ∈ (tasks.foldl renderSingleMarker st).markerTextures.map Prod.fst ↔
        a ∈ st.markerTextures.map Prod.fst ∨ a ∈ tasks.map TaskDocument.id)
    ∧ ((st.markerTextures.map Prod.fst).Nodup →
        ((tasks.foldl renderSingleMarker st).markerTextures.map Prod.fst).Nodup)
    ∧ (tasks.foldl renderSingleMarker st).markerChildren.length
        = st.markerChildren.length + tasks.length := by
  induction tasks generalizing st with
  | nil =>
      exact ⟨fun a => by simp, fun h => h, by simp⟩
  | cons t ts ih =>
      have hview := renderSingleMarker_sameView st t
      obtain ⟨v, hmt, hch⟩ := renderSingleMarker_effect st t hmc hsp
      obtain ⟨i1, i2, i3⟩ := ih (renderSingleMarker st t)
        (hview.hasMarkerContainer.trans hmc) (hview.hasSprite.trans hsp)
      refine ⟨?_, ?_, ?_⟩
      · intro a
        rw [List.foldl_cons, i1 a, hmt, mem_keys_mapSet]
        simp only [List.map_cons, List.mem_cons]
        tauto
      · intro hnd
        rw [List.foldl_cons]
        refine i2 ?_
        rw [hmt]
        exact nodup_keys_mapSet _ _ _ hnd
      · rw [List.foldl_cons, i3, hch]
        simp [List.length_append]
        omega

lemma renderAllMarkers_registry (st : RendererState)
    (tasks : List TaskDocument) (hmc : st.hasMarkerContainer = true)
    (hsp : st.hasSprite = true) :
    (∀ a, a ∈ (renderAllMarkers st tasks).markerTextures.map Prod.fst ↔
        a ∈ tasks.map TaskDocument.id)
    ∧ ((renderAllMarkers st tasks).markerTextures.map Prod.fst).Nodup
    ∧ (renderAllMarkers st tasks).markerChildren.length = tasks.length := by
  unfold renderAllMarkers
  rw [if_neg (by simp [hmc])]
  obtain ⟨i1, i2, i3⟩ := foldl_renderSingleMarker_registry tasks
    { st with markerChildren := [], markerTextures := [] } hmc hsp
  refine ⟨fun a => ?_, ?_, ?_⟩
  · rw [i1 a]
    simp
  · exact i2 (by simp)
  · rw [i3]
    simp

lemma repaintOne_sameView (tasks : List TaskDocument) (st : RendererState)
    (c : String) : SameView (repaintOne tasks st c) st := by
  unfold repaintOne
  cases hget : mapGet st.markerTextures c with
  | none =>
      cases hfind : tasks.find? fun t => t.id = c with
      | none => exact SameView.rfl st
      | some task => exact renderSingleMarker_sameView st task
  | some m =>
      cases hfind : tasks.find? fun t => t.id = c with
      | none => constructor <;> rfl
      | some task =>
          exact (renderSingleMarker_sameView _ task).trans
            (by constructor <;> rfl)

lemma repaintOne_keys (tasks : List TaskDocument) (st : RendererState)
    (c : String) (hmc : st.hasMarkerContainer = true)
    (hsp : st.hasSprite = true) :
    (∀ a, a ∈ (repaintOne tasks st c).markerTextures.map Prod.fst ↔
        ((a ∈ st.markerTextures.map Prod.fst ∧ a ≠ c)
          ∨ (a = c ∧ c ∈ tasks.map TaskDocument.id)))
    ∧ ((st.markerTextures.map Prod.fst).Nodup →
        ((repaintOne tasks st c).markerTextures.map Prod.fst).Nodup) := by
  have hfilter_mem : ∀ a, a ∈ (st.markerTextures.map Prod.fst).filter (fun b => b ≠ c)
      ↔ (a ∈ st.markerTextures.map Prod.fst ∧ a ≠ c) := by
    intro a
    simp [List.mem_filter]
  unfold repaintOne
  cases hget : mapGet st.markerTextures c with
  | none =>
      have hnotin : c ∉ st.markerTextures.map Prod.fst :=
        (mapGet_eq_none_iff _ _).mp hget
      have hkeys1 : st.markerTextures.map Prod.fst
          = (st.markerTextures.map Prod.fst).filter fun b => b ≠ c := by
        refine (List.filter_eq_self.mpr fun a ha => ?_).symm
        simp only [decide_eq_true_eq]
        intro hac
        exact hnotin (hac ▸ ha)
      cases hfind : tasks.find? fun t => t.id = c with
      | none =>
          have hcid : c ∉ tasks.map TaskDocument.id := by
            intro hmem
            obtain ⟨t, ht, hte⟩ := List.mem_map.mp hmem
            have := List.find?_eq_none.mp hfind t ht
            simp [hte] at this
          refine ⟨fun a => ?_, fun h => h⟩
          constructor
          · intro ha
            refine Or.inl ⟨ha, ?_⟩
            intro hac
            exact hnotin (hac ▸ ha)
          · rintro (⟨ha, _⟩ | ⟨rfl, hc⟩)
            · exact ha
            · exact absurd hc hcid
      | some task =>
          have htid : task.id = c := by
            have := List.find?_some hfind
            simpa using this
          have htmem : task ∈ tasks := List.mem_of_find?_eq_some hfind
          have hcid : c ∈ tasks.map TaskDocument.id :=
            List.mem_map.mpr ⟨task, htmem, htid⟩
          obtain ⟨v, hmt, _⟩ := renderSingleMarker_effect st task hmc hsp
          refine ⟨fun a => ?_, fun hnd => ?_⟩
          · rw [hmt, mem_keys_mapSet, htid]
            constructor
            · rintro (ha | rfl)
              · refine Or.inl ⟨ha, ?_⟩
                intro hac
                exact hnotin (hac ▸ ha)
              · exact Or.inr ⟨rfl, hcid⟩
            · rintro (⟨ha, _⟩ | ⟨rfl, _⟩)
              · exact Or.inl ha
              · exact Or.inr rfl
          · rw [hmt]
            exact nodup_keys_mapSet _ _ _ hnd
  | some m =>
      cases hfind : tasks.find? fun t => t.id = c with
      | none =>
          have hcid : c ∉ tasks.map TaskDocument.id := by
            intro hmem
            obtain ⟨t, ht, hte⟩ := List.mem_map.mp hmem
            have := List.find?_eq_none.mp hfind t ht
            simp [hte] at this
          refine ⟨fun a => ?_, fun hnd => ?_⟩
          · simp only [keys_mapDelete]
            rw [hfilter_mem a]
            constructor
            · exact Or.inl
            · rintro (h | ⟨rfl, hc⟩)
              · exact h
              · exact absurd hc hcid
          · simp only [keys_mapDelete]
            exact hnd.filter _
      | some task =>
          have htid : task.id = c := by
            have := List.find?_some hfind
            simpa using this
          have htmem : task ∈ tasks := List.mem_of_find?_eq_some hfind
          have hcid : c ∈ tasks.map TaskDocument.id :=
            List.mem_map.mpr ⟨task, htmem, htid⟩
          have hmc1 : ({ st with
              markerChildren := removeChildByTag st.markerChildren m.tag,
              markerTextures := mapDelete st.markerTextures c } :
                RendererState).hasMarkerContainer = true := hmc
          have hsp1 : ({ st with
              markerChildren := removeChildByTag st.markerChildren m.tag,
              markerTextures := mapDelete st.markerTextures c } :
                RendererState).hasSprite = true := hsp
          obtain ⟨v, hmt, _⟩ := renderSingleMarker_effect _ task hmc1 hsp1
          refine ⟨fun a => ?_, fun hnd => ?_⟩
          · rw [hmt, mem_keys_mapSet, htid]
            simp only [keys_mapDelete]
            rw [hfilter_mem a]
            constructor
            · rintro (⟨ha, hne⟩ | rfl)
              · exact Or.inl ⟨ha, hne⟩
              · exact Or.inr ⟨rfl, hcid⟩
            · rintro (⟨ha, hne⟩ | ⟨rfl, _⟩)
              · exact Or.inl ⟨ha, hne⟩
              · exact Or.inr rfl
          · rw [hmt]
            refine nodup_keys_mapSet _ _ _ ?_
            simp only [keys_mapDelete]
            exact hnd.filter _

lemma foldl_repaintOne_keys (changedTaskIds : List String)
    (tasks : List TaskDocument) (st : RendererState)
    (hmc : st.hasMarkerContainer = true) (hsp : st.hasSprite = true) :
    (∀ a, a ∈ (changedTaskIds.foldl (repaintOne tasks) st).markerTextures.map Prod.fst ↔
        ((a ∈ st.markerTextures.map Prod.fst ∧ a ∉ changedTaskIds)
          ∨ (a ∈ changedTaskIds ∧ a ∈ tasks.map TaskDocument.id)))
    ∧ ((st.markerTextures.map Prod.fst).Nodup →
        ((changedTaskIds.foldl (repaintOne tasks) st).markerTextures.map Prod.fst).Nodup) := by
  induction changedTaskIds generalizing st with
  | nil =>
      refine ⟨fun a => ?_, fun h => h⟩
      simp
  | cons c rest ih =>
      have hview := repaintOne_sameView tasks st c
      obtain ⟨r1, r2⟩ := repaintOne_keys tasks st c hmc hsp
      obtain ⟨i1, i2⟩ := ih (repaintOne tasks st c)
        (hview.hasMarkerContainer.trans hmc) (hview.hasSprite.trans hsp)
      refine ⟨fun a => ?_, fun hnd => ?_⟩
      · rw [List.foldl_cons, i1 a]
        constructor
        · rintro (⟨h1, hnr⟩ | ⟨hr, hid⟩)
          · rcases (r1 a).mp h1 with ⟨ha, hne⟩ | ⟨rfl, hc⟩
            · refine Or.inl ⟨ha, ?_⟩
              intro hm
              rcases List.mem_cons.mp hm with he | hr
              · exact hne he
              · exact hnr hr
            · exact Or.inr ⟨List.mem_cons_self _ _, hc⟩
          · exact Or.inr ⟨List.mem_cons_of_mem c hr, hid⟩
        · rintro (⟨ha, hn⟩ | ⟨hm, hid⟩)
          · have hne : a ≠ c := fun he => hn (by rw [he]; exact List.mem_cons_self c rest)
            have hnr : a ∉ rest := fun hr => hn (List.mem_cons_of_mem c hr)
            exact Or.inl ⟨(r1 a).mpr (Or.inl ⟨ha, hne⟩), hnr⟩
          · rcases List.mem_cons.mp hm with rfl | hr
            · by_cases har : a ∈ rest
              · exact Or.inr ⟨har, hid⟩
              · exact Or.inl ⟨(r1 a).mpr (Or.inr ⟨rfl, hid⟩), har⟩
            · exact Or.inr ⟨hr, hid⟩
      · rw [List.foldl_cons]
        exact i2 (r2 hnd)

/-- Claim C6: after `renderAllMarkers(tasks)` the registry holds exactly
the ids of `tasks`, with no duplicate keys; `repaintChangedMarkers`
keeps unchanged entries, re-registers changed ids still present in
`tasks` and drops changed ids that were removed (no stale entries);
rendering the same task list twice still yields exactly one registry
entry and one marker per task id. -/
theorem C6_registry_invariant (st : RendererState) (tasks : List TaskDocument)
    (hmc : st.hasMarkerContainer = true) (hsp : st.hasSprite = true) :
    ((∀ id, id ∈ (renderAllMarkers st tasks).markerTextures.map Prod.fst ↔
        id ∈ tasks.map TaskDocument.id)
      ∧ ((renderAllMarkers st tasks).markerTextures.map Prod.fst).Nodup)
    ∧ (∀ changedTaskIds : List String,
        (∀ id, id ∈ (repaintChangedMarkers st changedTaskIds tasks).markerTextures.map Prod.fst ↔
            ((id ∈ st.markerTextures.map Prod.fst ∧ id ∉ changedTaskIds)
              ∨ (id ∈ changedTaskIds ∧ id ∈ tasks.map TaskDocument.id)))
        ∧ ((st.markerTextures.map Prod.fst).Nodup →
            ((repaintChangedMarkers st changedTaskIds tasks).markerTextures.map Prod.fst).Nodup))
    ∧ ((∀ id, id ∈ (renderAllMarkers (renderAllMarkers st tasks) tasks).markerTextures.map Prod.fst ↔
          id ∈ tasks.map TaskDocument.id)
        ∧ ((renderAllMarkers (renderAllMarkers st tasks) tasks).markerTextures.map Prod.fst).Nodup
        ∧ (renderAllMarkers (renderAllMarkers st tasks) tasks).markerChildren.length
            = tasks.length) := by
  obtain ⟨a1, a2, a3⟩ := renderAllMarkers_registry st tasks hmc hsp
  have hview := renderAllMarkers_sameView st tasks
  obtain ⟨b1, b2, b3⟩ := renderAllMarkers_registry (renderAllMarkers st tasks)
    tasks (hview.hasMarkerContainer.trans hmc) (hview.hasSprite.trans hsp)
  refine ⟨⟨a1, a2⟩, fun changedTaskIds => ?_, b1, b2, b3⟩
  unfold repaintChangedMarkers
  rw [if_neg (by simp [hmc])]
  exact foldl_repaintOne_keys changedTaskIds tasks st hmc hsp

/-- Two demo tasks with distinct ids. -/
def demoTasks : List TaskDocument :=
  [{ id := "a", coordinates := { x := 1/4, y := 1/4 }, checklist := [] },
   { id := "b", coordinates := { x := 3/4, y := 3/4 }, checklist := [] }]

theorem C6_registry_invariant_witness :
    (initializeRenderer 800 600 800 600).hasMarkerContainer = true ∧
    (initializeRenderer 800 600 800 600).hasSprite = true ∧
    ("a" ∈ (renderAllMarkers (renderAllMarkers (initializeRenderer 800 600 800 600) demoTasks)
        demoTasks).markerTextures.map Prod.fst ↔
      "a" ∈ demoTasks.map TaskDocument.id) ∧
    ((renderAllMarkers (renderAllMarkers (initializeRenderer 800 600 800 600) demoTasks)
        demoTasks).markerTextures.map Prod.fst).Nodup ∧
    (renderAllMarkers (renderAllMarkers (initializeRenderer 800 600 800 600) demoTasks)
        demoTasks).markerChildren.length = demoTasks.length := by
  have H := C6_registry_invariant (initializeRenderer 800 600 800 600) demoTasks rfl rfl
  exact ⟨rfl, rfl, H.2.2.1 "a", H.2.2.2.1, H.2.2.2.2⟩

/-- Claim C8: for an id not present in `tasks`,
`repaintChangedMarkers({id}, tasks)` removes any existing marker for
that id from both the container and the registry and adds none; calling
it a second time with the same arguments is a no-op. -/
theorem C8_idempotent_delete (st : RendererState) (taskId : String)
    (tasks : List TaskDocument) (hmc : st.hasMarkerContainer = true)
    (h : taskId ∉ tasks.map TaskDocument.id) :
    (repaintChangedMarkers st [taskId] tasks).markerTextures
      = mapDelete st.markerTextures taskId
    ∧ taskId ∉ (repaintChangedMarkers st [taskId] tasks).markerTextures.map Prod.fst
    ∧ (repaintChangedMarkers st [taskId] tasks).markerChildren =
        (match mapGet st.markerTextures taskId with
          | some m => removeChildByTag st.markerChildren m.tag
          | none => st.markerChildren)
    ∧ repaintChangedMarkers (repaintChangedMarkers st [taskId] tasks) [taskId] tasks
        = repaintChangedMarkers st [taskId] tasks := by
  have hfind : (tasks.find? fun t => t.id = taskId) = none := by
    rw [List.find?_eq_none]
    intro t ht
    simp only [decide_eq_true_eq]
    intro hte
    exact h (List.mem_map.mpr ⟨t, ht, hte⟩)
  have hone : ∀ s : RendererState, repaintOne tasks s taskId =
      (match mapGet s.markerTextures taskId with
        | some m =>
            { s with
              markerChildren := removeChildByTag s.markerChildren m.tag
              markerTextures := mapDelete s.markerTextures taskId }
        | none => s) := by
    intro s
    unfold repaintOne
    cases hget : mapGet s.markerTextures taskId with
    | none => simp [hfind]
    | some m => simp [hfind]
  have hcall : ∀ s : RendererState, s.hasMarkerContainer = true →
      repaintChangedMarkers s [taskId] tasks = repaintOne tasks s taskId := by
    intro s hsmc
    unfold repaintChangedMarkers
    rw [if_neg (by simp [hsmc])]
    rfl
  rw [hcall st hmc, hone st]
  cases hget : mapGet st.markerTextures taskId with
  | none =>
      have hnotin : taskId ∉ st.markerTextures.map Prod.fst :=
        (mapGet_eq_none_iff _ _).mp hget
      refine ⟨(mapDelete_of_get_none _ _ hget).symm, hnotin, rfl, ?_⟩
      rw [hcall st hmc, hone st, hget]
  | some m =>
      refine ⟨rfl, ?_, rfl, ?_⟩
      · rw [keys_mapDelete]
        simp
      · have hmc1 : ({ st with
            markerChildren := removeChildByTag st.markerChildren m.tag
            markerTextures := mapDelete st.markerTextures taskId } :
              RendererState).hasMarkerContainer = true := hmc
        rw [hcall _ hmc1, hone _]
        have hget2 : mapGet ({ st with
            markerChildren := removeChildByTag st.markerChildren m.tag
            markerTextures := mapDelete st.markerTextures taskId } :
              RendererState).markerTextures taskId = none := by
          simpa using mapGet_mapDelete st.markerTextures taskId
        rw [hget2]

/-- The demo task list with the task `"a"` removed. -/
def demoTasksB : List TaskDocument :=
  [{ id := "b", coordinates := { x := 3/4, y := 3/4 }, checklist := [] }]

theorem C8_idempotent_delete_witness :
    (renderAllMarkers (initializeRenderer 800 600 800 600) demoTasks).hasMarkerContainer = true ∧
    "a" ∉ demoTasksB.map TaskDocument.id ∧
    ((repaintChangedMarkers (renderAllMarkers (initializeRenderer 800 600 800 600) demoTasks)
        ["a"] demoTasksB).markerTextures
      = mapDelete (renderAllMarkers (initializeRenderer 800 600 800 600) demoTasks).markerTextures "a"
    ∧ "a" ∉ (repaintChangedMarkers (renderAllMarkers (initializeRenderer 800 600 800 600) demoTasks)
        ["a"] demoTasksB).markerTextures.map Prod.fst
    ∧ (repaintChangedMarkers (renderAllMarkers (initializeRenderer 800 600 800 600) demoTasks)
        ["a"] demoTasksB).markerChildren =
        (match mapGet (renderAllMarkers (initializeRenderer 800 600 800 600) demoTasks).markerTextures "a" with
          | some m => removeChildByTag (renderAllMarkers (initializeRenderer 800 600 800 600) demoTasks).markerChildren m.tag
          | none => (renderAllMarkers (initializeRenderer 800 600 800 600) demoTasks).markerChildren)
    ∧ repaintChangedMarkers
        (repaintChangedMarkers (renderAllMarkers (initializeRenderer 800 600 800 600) demoTasks)
          ["a"] demoTasksB) ["a"] demoTasksB
        = repaintChangedMarkers (renderAllMarkers (initializeRenderer 800 600 800 600) demoTasks)
          ["a"] demoTasksB) := by
  refine ⟨(renderAllMarkers_sameView _ _).hasMarkerContainer.trans rfl, by simp [demoTasksB], ?_⟩
  exact C8_idempotent_delete (renderAllMarkers (initializeRenderer 800 600 800 600) demoTasks)
    "a" demoTasksB ((renderAllMarkers_sameView _ _).hasMarkerContainer.trans rfl)
    (by simp [demoTasksB])

end FloorSync
